import Mathlib

/-!
Verification of the reconciliation tool in `src/main.py` (immich-downsizer).

Shallow embedding conventions:

* A physical filesystem path (`pathlib.Path`) is a list of components
  (`PathT`); `p.parent` is `List.dropLast`, `p / s` appends one component.
* The stored (database) path strings handled by `Compressor.get_actual_path`
  are lists of characters (`CPath`); `str.startswith` is `List.isPrefixOf`
  and `db_path[7:]` is `List.drop 7`.
* The filesystem is a partial map from paths to file data; `stat().st_size`
  is the length of the byte list; `Path.exists` is definedness of the map.
* External collaborators are black boxes, packaged in `Env`:
  the two `exiftool` invocations are arbitrary functions returning an exit
  code and the transformed file contents (the source never inspects the
  exit code, mirroring `subprocess.run` without `check=True`), and the
  HTTP responses of the indexing service are arbitrary status codes.
  `requests.Response.raise_for_status` raises exactly for statuses in
  [400, 600).
* The body of the `for` loop in `main` (src/main.py lines 141-190) is
  `process_video`; it returns the branch taken (`Outcome`), the filesystem
  after the iteration, the list of externally visible actions (`Event`),
  and whether an exception escaped the iteration.  `run_videos` is the
  whole loop; `main` performs nothing after the loop
  (`refresh_all_metadata` is defined in the source but never called).
-/

/-- One byte-addressed file; `stat().st_size` is `bytes.length`. -/
structure FileData where
  bytes : List Nat
deriving DecidableEq, Repr

/-- `stat().st_size` of a file. -/
def FileData.size (f : FileData) : Nat := f.bytes.length

/-- A physical path, as a list of components from the root. -/
abbrev PathT := List String

/-- `pathlib.Path.parent`. -/
def pathParent (p : PathT) : PathT := p.dropLast

/-- `pathlib.Path.__truediv__` with a single-component right operand. -/
def pathJoin (p : PathT) (s : String) : PathT := p ++ [s]

/-- The filesystem: a partial map from paths to file contents. -/
def FS : Type := PathT → Option FileData

/-- `Path.exists()`. -/
def fsExists (fs : FS) (p : PathT) : Bool := (fs p).isSome

/-- Writing (creating or silently overwriting) a file, as done by
`shutil.copyfile` at its destination and by `exiftool -overwrite_original`. -/
def fsWrite (fs : FS) (p : PathT) (d : FileData) : FS :=
  fun q => if q = p then some d else fs q

/-- `shutil.move src dst` for files on the same filesystem: a single rename.
If the source does not exist the filesystem is unchanged (the real call
would raise; the tool only moves a file it has just written). -/
def fsMove (fs : FS) (src dst : PathT) : FS :=
  match fs src with
  | some d => fun q => if q = dst then some d else if q = src then none else fs q
  | none => fs

/-- `requests.Response.raise_for_status` raises `HTTPError` exactly for
status codes in [400, 600). -/
def raiseForStatus (status : Nat) : Bool :=
  decide (400 ≤ status ∧ status < 600)

/-- The record built by `Compressor.get_large_videos` (the `Video`
`TypedDict` of the source), polymorphic in the path representation. -/
structure Video (π : Type) where
  id : String
  encoded_path : Option π
  original_path : Option π
  width : Int
  height : Int
  size : Int
deriving DecidableEq, Repr

/-- Externally visible actions of one run, in program order. -/
inductive Event where
  | copyFile (src dst : PathT)
  | exiftoolTagsFrom (orig target : PathT)
  | exiftoolClearDims (target : PathT)
  | moveFile (src dst : PathT)
  | refreshSingle (assetId : String)
  | refreshBulk
deriving DecidableEq, Repr

/-- The external collaborators, as black boxes.
`copyTags orig tmp` is the effect of
`exiftool -tagsFromFile orig tmp -overwrite_original`: the exit status and
the new contents of `tmp`.  `clearDims tmp` is the effect of
`exiftool -ImageHeight= -ImageWidth= tmp -overwrite_original`.
`refreshStatus id` and `bulkStatus` are the HTTP status codes returned by
the two indexing-service endpoints. -/
structure Env where
  copyTags : FileData → FileData → Int × FileData
  clearDims : FileData → Int × FileData
  refreshStatus : String → Nat
  bulkStatus : Nat

/-- The classification of one record by the loop body. -/
inductive Outcome where
  | Skipped
  | MetadataOnly
  | Swapped
deriving DecidableEq, Repr

/-- Result of one iteration of the loop in `main`:
the branch taken, the filesystem afterwards, the externally visible
actions, and whether an exception escaped the iteration. -/
structure StepResult where
  outcome : Outcome
  fs : FS
  events : List Event
  raised : Bool

/-- `refresh_metadata` (src/main.py lines 33-49): POSTs a single-asset
refresh job; on a 4xx/5xx response it logs the body and re-raises.
Returns the event and whether it raised. -/
def refresh_metadata (env : Env) (assetId : String) : List Event × Bool :=
  ([Event.refreshSingle assetId], raiseForStatus (env.refreshStatus assetId))

/-- `refresh_all_metadata` (src/main.py lines 52-65): PUTs a forced
library-wide metadata-extraction job; `raise_for_status` on the response.
Defined in the source but never invoked by `main`. -/
def refresh_all_metadata (env : Env) : List Event × Bool :=
  ([Event.refreshBulk], raiseForStatus env.bulkStatus)

/-- The body of the `for` loop of `main` (src/main.py lines 141-190) for a
single record.  Faithful to the source: unresolvable paths and missing
files `continue` with no side effect; a not-smaller encoded file only
refreshes metadata; otherwise the encoded file is copied to the fixed
sibling `tmp`, the two `exiftool` calls run with their exit codes ignored,
`shutil.move` replaces the original unconditionally, and the single-asset
refresh runs last. -/
def process_video (env : Env) (fs : FS) (v : Video PathT) : StepResult :=
  match v.encoded_path, v.original_path with
  | none, _ => ⟨Outcome.Skipped, fs, [], false⟩
  | some _, none => ⟨Outcome.Skipped, fs, [], false⟩
  | some encoded_file, some original_file =>
    match fs original_file, fs encoded_file with
    | none, _ => ⟨Outcome.Skipped, fs, [], false⟩
    | some _, none => ⟨Outcome.Skipped, fs, [], false⟩
    | some origData, some encData =>
      if encData.size ≥ origData.size then
        let r := refresh_metadata env v.id
        ⟨Outcome.MetadataOnly, fs, r.1, r.2⟩
      else
        let tmp_file := pathJoin (pathParent original_file) "tmp"
        let fs1 := fsWrite fs tmp_file encData
        let r1 := env.copyTags origData encData
        let fs2 := fsWrite fs1 tmp_file r1.2
        let r2 := env.clearDims r1.2
        let fs3 := fsWrite fs2 tmp_file r2.2
        let fs4 := fsMove fs3 tmp_file original_file
        let r := refresh_metadata env v.id
        ⟨Outcome.Swapped, fs4,
          [Event.copyFile encoded_file tmp_file,
           Event.exiftoolTagsFrom original_file tmp_file,
           Event.exiftoolClearDims tmp_file,
           Event.moveFile tmp_file original_file] ++ r.1,
          r.2⟩

/-- The `for` loop of `main` over the fetched records.  An exception
raised inside an iteration propagates: the run stops there (there is no
`try`/`except` around the loop body in the source).  Returns the final
filesystem, the concatenated event trace, and whether the run died with
an uncaught exception (non-zero process exit). -/
def run_videos (env : Env) (fs : FS) : List (Video PathT) → FS × List Event × Bool
  | [] => (fs, [], false)
  | v :: vs =>
    let r := process_video env fs v
    if r.raised then (r.fs, r.events, true)
    else
      let rest := run_videos env r.fs vs
      (rest.1, r.events ++ rest.2.1, rest.2.2)

/-- `main` after fetching the records (src/main.py lines 137-190): it runs
the loop and nothing else — in particular it never calls
`refresh_all_metadata`. -/
def main_run (env : Env) (fs : FS) (videos : List (Video PathT)) :
    FS × List Event × Bool :=
  run_videos env fs videos

/-- A stored database path, as the list of its characters. -/
abbrev CPath := List Char

/-- The literal `"upload/"`. -/
def uploadPfx : CPath := ['u', 'p', 'l', 'o', 'a', 'd', '/']

/-- `pathlib.Path / string` at the character level: the library root,
a separator, then the relative remainder. -/
def cpathJoin (root rel : CPath) : CPath := root ++ '/' :: rel

/-- `Compressor.get_actual_path` (src/main.py lines 117-121):
`None` unless the stored path starts with `"upload/"`, else the library
root joined with `db_path[7:]`.  Pure: takes no filesystem argument. -/
def get_actual_path (library_path : CPath) (db_path : CPath) : Option CPath :=
  if uploadPfx.isPrefixOf db_path then
    some (cpathJoin library_path (db_path.drop 7))
  else
    none

/-- One row of the `assets` table (the columns the query reads). -/
structure AssetRow where
  id : String
  encodedVideoPath : CPath
  originalPath : CPath
  type : String
deriving DecidableEq, Repr

/-- One row of the `exif` table (the columns the query reads). -/
structure ExifRow where
  assetId : String
  exifImageWidth : Int
  exifImageHeight : Int
  fileSizeInByte : Int
deriving DecidableEq, Repr

/-- `LARGE_VIDEO_QUERY` (src/main.py lines 16-30): inner join of `assets`
and `exif` on `exif.assetId = assets.id`, filtered to
`type = VIDEO and exifImageHeight > 1080 and exifImageWidth > 1080`. -/
def large_video_query (assets : List AssetRow) (exif : List ExifRow) :
    List (AssetRow × ExifRow) :=
  (assets.flatMap fun a =>
    (exif.filter fun e => e.assetId == a.id).map fun e => (a, e)).filter
    fun r =>
      r.1.type == "VIDEO" && decide (1080 < r.2.exifImageHeight)
        && decide (1080 < r.2.exifImageWidth)

/-- `Compressor.get_large_videos` (src/main.py lines 101-115): runs the
query and builds one `Video` per row, resolving both stored paths with
`get_actual_path`. -/
def get_large_videos (library_path : CPath) (assets : List AssetRow)
    (exif : List ExifRow) : List (Video CPath) :=
  (large_video_query assets exif).map fun r =>
    { id := r.1.id
      encoded_path := get_actual_path library_path r.1.encodedVideoPath
      original_path := get_actual_path library_path r.1.originalPath
      width := r.2.exifImageWidth
      height := r.2.exifImageHeight
      size := r.2.fileSizeInByte }

/-! ### Filesystem lemmas -/

theorem fsWrite_self (fs : FS) (p : PathT) (d : FileData) :
    fsWrite fs p d p = some d := by
  simp [fsWrite]

theorem fsWrite_ne (fs : FS) (p : PathT) (d : FileData) (q : PathT)
    (h : q ≠ p) : fsWrite fs p d q = fs q := by
  simp [fsWrite, h]

theorem fsMove_dst (fs : FS) (src dst : PathT) (d : FileData)
    (h : fs src = some d) : fsMove fs src dst dst = some d := by
  simp [fsMove, h]

/-! ### Branch characterizations of the loop body -/

/-- If the encoded or the original path is unresolvable, or either file is
missing, the iteration is a pure skip. -/
theorem process_video_skip (env : Env) (fs : FS) (v : Video PathT)
    (h : (process_video env fs v).outcome = Outcome.Skipped) :
    process_video env fs v = ⟨Outcome.Skipped, fs, [], false⟩ := by
  cases henc : v.encoded_path with
  | none => simp [process_video, henc]
  | some e =>
    cases horig : v.original_path with
    | none => simp [process_video, henc, horig]
    | some o =>
      cases ho : fs o with
      | none => simp [process_video, henc, horig, ho]
      | some od =>
        cases he : fs e with
        | none => simp [process_video, henc, horig, ho, he]
        | some ed =>
          exfalso
          simp only [process_video, henc, horig, ho, he] at h
          split at h <;> simp_all

/-- The no-gain branch: both files present, encoded not smaller. -/
theorem process_video_noGain (env : Env) (fs : FS) (v : Video PathT)
    (e o : PathT) (od ed : FileData)
    (henc : v.encoded_path = some e) (horig : v.original_path = some o)
    (ho : fs o = some od) (he : fs e = some ed)
    (hsz : od.size ≤ ed.size) :
    process_video env fs v =
      ⟨Outcome.MetadataOnly, fs, [Event.refreshSingle v.id],
       raiseForStatus (env.refreshStatus v.id)⟩ := by
  simp only [process_video, henc, horig, ho, he]
  rw [if_pos hsz]
  rfl

/-- The swap branch: both files present, encoded strictly smaller.  The
exit codes of both `exiftool` invocations are discarded, the temporary
sibling `tmp` is written three times, and the move happens
unconditionally. -/
theorem process_video_swap (env : Env) (fs : FS) (v : Video PathT)
    (e o : PathT) (od ed : FileData)
    (henc : v.encoded_path = some e) (horig : v.original_path = some o)
    (ho : fs o = some od) (he : fs e = some ed)
    (hsz : ed.size < od.size) :
    process_video env fs v =
      ⟨Outcome.Swapped,
       fsMove
         (fsWrite
           (fsWrite (fsWrite fs (pathJoin (pathParent o) "tmp") ed)
             (pathJoin (pathParent o) "tmp") (env.copyTags od ed).2)
           (pathJoin (pathParent o) "tmp")
           (env.clearDims (env.copyTags od ed).2).2)
         (pathJoin (pathParent o) "tmp") o,
       [Event.copyFile e (pathJoin (pathParent o) "tmp"),
        Event.exiftoolTagsFrom o (pathJoin (pathParent o) "tmp"),
        Event.exiftoolClearDims (pathJoin (pathParent o) "tmp"),
        Event.moveFile (pathJoin (pathParent o) "tmp") o,
        Event.refreshSingle v.id],
       raiseForStatus (env.refreshStatus v.id)⟩ := by
  simp only [process_video, henc, horig, ho, he]
  rw [if_neg (by omega)]
  rfl

/-- No branch of the loop body ever issues the bulk refresh. -/
theorem process_video_no_bulk (env : Env) (fs : FS) (v : Video PathT) :
    Event.refreshBulk ∉ (process_video env fs v).events := by
  cases henc : v.encoded_path with
  | none => simp [process_video, henc]
  | some e =>
    cases horig : v.original_path with
    | none => simp [process_video, henc, horig]
    | some o =>
      cases ho : fs o with
      | none => simp [process_video, henc, horig, ho]
      | some od =>
        cases he : fs e with
        | none => simp [process_video, henc, horig, ho, he]
        | some ed =>
          simp only [process_video, henc, horig, ho, he]
          split <;> simp [refresh_metadata]

/-! ### Concrete fixtures used by witnesses and counterexamples -/

/-- A concrete environment: both `exiftool` calls succeed, every HTTP
request returns 200/204. -/
def envW : Env :=
  { copyTags := fun od ed => (0, ⟨od.bytes ++ ed.bytes⟩)
    clearDims := fun d => (0, ⟨7 :: d.bytes⟩)
    refreshStatus := fun _ => 200
    bulkStatus := 204 }

/-- The empty filesystem. -/
def fsEmpty : FS := fun _ => none

/-- A record with both paths unresolvable. -/
def vskipW : Video PathT :=
  { id := "w", encoded_path := none, original_path := none
    width := 1200, height := 1200, size := 0 }

/-! ### C5, C6, C7, C9 -/

/-- C5: a stored path not starting with `"upload/"` resolves to `None`;
one starting with it resolves to the library root joined with exactly the
remainder after the prefix (`get_actual_path` is a pure function of its
two arguments: no filesystem access). -/
theorem C5_path_resolution (lib db : CPath) :
    (¬ uploadPfx <+: db → get_actual_path lib db = none) ∧
    (∀ rest : CPath, db = uploadPfx ++ rest →
      get_actual_path lib db = some (cpathJoin lib rest)) := by
  constructor
  · intro h
    simp only [get_actual_path]
    rw [if_neg]
    rw [ List.isPrefixOf_iff_prefix]
    exact h
  · rintro rest rfl
    simp only [get_actual_path]
    rw [if_pos]
    · have hdrop : (uploadPfx ++ rest).drop 7 = rest := by
        have h7 : uploadPfx.length = 7 := rfl
        rw [← h7]
        simp
      rw [hdrop]
    · rw [ List.isPrefixOf_iff_prefix]
      exact List.prefix_append _ _

/-- Witness for C5 at concrete inputs. -/
theorem C5_path_resolution_witness :
    get_actual_path ['l'] ['x', 'y'] = none ∧
    get_actual_path ['l'] (uploadPfx ++ ['a']) = some (cpathJoin ['l'] ['a']) :=
  ⟨(C5_path_resolution ['l'] ['x', 'y']).1 (by decide),
   (C5_path_resolution ['l'] (uploadPfx ++ ['a'])).2 ['a'] rfl⟩

/-- C6: a record classified `Skipped` (unresolvable path or missing file)
causes no filesystem mutation and no externally visible action — in
particular no notification to the indexing service. -/
theorem C6_skip_frame (env : Env) (fs : FS) (v : Video PathT)
    (h : (process_video env fs v).outcome = Outcome.Skipped) :
    (process_video env fs v).fs = fs ∧
    (process_video env fs v).events = [] := by
  rw [process_video_skip env fs v h]
  exact ⟨rfl, rfl⟩

/-- Witness for C6: a record with unresolvable paths. -/
theorem C6_skip_frame_witness :
    (process_video envW fsEmpty vskipW).fs = fsEmpty ∧
    (process_video envW fsEmpty vskipW).events = [] :=
  C6_skip_frame envW fsEmpty vskipW (by decide)

/-- C7: every record produced by `get_large_videos` has width and height
both strictly greater than 1080, enforced by the query predicate. -/
theorem C7_selection_predicate (lib : CPath) (assets : List AssetRow)
    (exif : List ExifRow) (v : Video CPath)
    (h : v ∈ get_large_videos lib assets exif) :
    1080 < v.width ∧ 1080 < v.height := by
  simp only [get_large_videos, List.mem_map] at h
  obtain ⟨r, hr, rfl⟩ := h
  simp only [large_video_query, List.mem_filter] at hr
  obtain ⟨-, hcond⟩ := hr
  simp only [Bool.and_eq_true, decide_eq_true_eq] at hcond
  exact ⟨hcond.2, hcond.1.2⟩

/-- A concrete `assets` row for the C7 witness. -/
def assetW : AssetRow :=
  { id := "a", encodedVideoPath := uploadPfx ++ ['e']
    originalPath := uploadPfx ++ ['o'], type := "VIDEO" }

/-- A concrete `exif` row for the C7 witness. -/
def exifW : ExifRow :=
  { assetId := "a", exifImageWidth := 1920, exifImageHeight := 1440
    fileSizeInByte := 100 }

/-- The record `get_large_videos` builds from `assetW` and `exifW`. -/
def videoW7 : Video CPath :=
  { id := "a", encoded_path := some (cpathJoin ['l'] ['e'])
    original_path := some (cpathJoin ['l'] ['o'])
    width := 1920, height := 1440, size := 100 }

/-- Witness for C7 at a concrete one-row database. -/
theorem C7_selection_predicate_witness :
    1080 < videoW7.width ∧ 1080 < videoW7.height :=
  C7_selection_predicate ['l'] [assetW] [exifW] videoW7 (by decide)

/-- C9: reconciling a `Skipped` record a second time on the unchanged
filesystem gives the identical result, and neither run mutates the
filesystem. -/
theorem C9_skip_idempotent (env : Env) (fs : FS) (v : Video PathT)
    (h : (process_video env fs v).outcome = Outcome.Skipped) :
    (process_video env fs v).fs = fs ∧
    process_video env ((process_video env fs v).fs) v =
      process_video env fs v ∧
    (process_video env ((process_video env fs v).fs) v).outcome =
      Outcome.Skipped := by
  have hs := process_video_skip env fs v h
  have hfs : (process_video env fs v).fs = fs := by rw [hs]
  refine ⟨hfs, ?_, ?_⟩ <;> rw [hfs]
  exact h

/-- Witness for C9: a record with unresolvable paths. -/
theorem C9_skip_idempotent_witness :
    (process_video envW fsEmpty vskipW).fs = fsEmpty ∧
    process_video envW ((process_video envW fsEmpty vskipW).fs) vskipW =
      process_video envW fsEmpty vskipW ∧
    (process_video envW ((process_video envW fsEmpty vskipW).fs) vskipW).outcome =
      Outcome.Skipped :=
  C9_skip_idempotent envW fsEmpty vskipW (by decide)

/-! ### C1, C8, C10 -/

/-- C1: with both paths resolvable and both files present, a not-smaller
encoded file gives `MetadataOnly` with no copy and no move (filesystem
untouched); a strictly smaller one gives `Swapped`, and the original path
afterwards holds exactly the contents the temporary file had immediately
before the move (the result of the second `exiftool` transformation,
`(env.clearDims (env.copyTags od ed).2).2`, which by
`process_video_swap` is the last value written to the temporary sibling
before `shutil.move`). -/
theorem C1_size_gate (env : Env) (fs : FS) (v : Video PathT) (e o : PathT)
    (od ed : FileData)
    (henc : v.encoded_path = some e) (horig : v.original_path = some o)
    (ho : fs o = some od) (he : fs e = some ed) :
    (od.size ≤ ed.size →
      (process_video env fs v).outcome = Outcome.MetadataOnly ∧
      (process_video env fs v).fs = fs ∧
      (∀ s d, Event.copyFile s d ∉ (process_video env fs v).events) ∧
      (∀ s d, Event.moveFile s d ∉ (process_video env fs v).events)) ∧
    (ed.size < od.size →
      (process_video env fs v).outcome = Outcome.Swapped ∧
      (process_video env fs v).fs o =
        some (env.clearDims (env.copyTags od ed).2).2) := by
  constructor
  · intro hsz
    rw [process_video_noGain env fs v e o od ed henc horig ho he hsz]
    refine ⟨rfl, rfl, ?_, ?_⟩ <;> intro s d <;> simp
  · intro hsz
    rw [process_video_swap env fs v e o od ed henc horig ho he hsz]
    exact ⟨rfl, fsMove_dst _ _ _ _ (fsWrite_self _ _ _)⟩

/-- Concrete original path. -/
def oW : PathT := ["lib", "orig.mp4"]

/-- Concrete encoded path, larger variant. -/
def eBigW : PathT := ["lib", "enc-big.mp4"]

/-- Concrete encoded path, smaller variant. -/
def eSmallW : PathT := ["lib", "enc-small.mp4"]

/-- Original contents, 3 bytes. -/
def odW : FileData := ⟨[1, 2, 3]⟩

/-- Larger encoded contents, 5 bytes. -/
def edBigW : FileData := ⟨[9, 9, 9, 9, 9]⟩

/-- Smaller encoded contents, 1 byte. -/
def edSmallW : FileData := ⟨[5]⟩

/-- A filesystem holding the three files above. -/
def fsW : FS := fun p =>
  if p = oW then some odW
  else if p = eBigW then some edBigW
  else if p = eSmallW then some edSmallW
  else none

/-- Record whose encoded variant is not smaller. -/
def vGeW : Video PathT :=
  { id := "ge", encoded_path := some eBigW, original_path := some oW
    width := 2000, height := 2000, size := 3 }

/-- Record whose encoded variant is strictly smaller. -/
def vLtW : Video PathT :=
  { id := "lt", encoded_path := some eSmallW, original_path := some oW
    width := 2000, height := 2000, size := 3 }

/-- Witness for C1 on both sides of the size gate. -/
theorem C1_size_gate_witness :
    odW.size ≤ edBigW.size ∧
    (process_video envW fsW vGeW).outcome = Outcome.MetadataOnly ∧
    edSmallW.size < odW.size ∧
    (process_video envW fsW vLtW).outcome = Outcome.Swapped ∧
    (process_video envW fsW vLtW).fs oW =
      some (envW.clearDims (envW.copyTags odW edSmallW).2).2 :=
  ⟨by decide,
   ((C1_size_gate envW fsW vGeW eBigW oW odW edBigW rfl rfl (by decide)
      (by decide)).1 (by decide)).1,
   by decide,
   ((C1_size_gate envW fsW vLtW eSmallW oW odW edSmallW rfl rfl (by decide)
      (by decide)).2 (by decide)).1,
   ((C1_size_gate envW fsW vLtW eSmallW oW odW edSmallW rfl rfl (by decide)
      (by decide)).2 (by decide)).2⟩

/-- C8: in the swap branch the temporary file lives in the original's
parent directory, the whole externally visible trace is exactly copy to
the temporary sibling, the two `exiftool` calls, one single move of the
temporary file onto the original's path, and the refresh — and that move
is the only move in the trace (no copy-then-delete replacement). -/
theorem C8_swap_atomicity (env : Env) (fs : FS) (v : Video PathT)
    (e o : PathT) (od ed : FileData)
    (henc : v.encoded_path = some e) (horig : v.original_path = some o)
    (ho : fs o = some od) (he : fs e = some ed)
    (hsz : ed.size < od.size) :
    pathParent (pathJoin (pathParent o) "tmp") = pathParent o ∧
    (process_video env fs v).events =
      [Event.copyFile e (pathJoin (pathParent o) "tmp"),
       Event.exiftoolTagsFrom o (pathJoin (pathParent o) "tmp"),
       Event.exiftoolClearDims (pathJoin (pathParent o) "tmp"),
       Event.moveFile (pathJoin (pathParent o) "tmp") o,
       Event.refreshSingle v.id] ∧
    ((process_video env fs v).events.count
      (Event.moveFile (pathJoin (pathParent o) "tmp") o)) = 1 := by
  refine ⟨?_, ?_, ?_⟩
  · simp [pathParent, pathJoin]
  · rw [process_video_swap env fs v e o od ed henc horig ho he hsz]
  · rw [process_video_swap env fs v e o od ed henc horig ho he hsz]
    simp [List.count_cons]

/-- Witness for C8 at the concrete swap record. -/
theorem C8_swap_atomicity_witness :
    pathParent (pathJoin (pathParent oW) "tmp") = pathParent oW ∧
    (process_video envW fsW vLtW).events =
      [Event.copyFile eSmallW (pathJoin (pathParent oW) "tmp"),
       Event.exiftoolTagsFrom oW (pathJoin (pathParent oW) "tmp"),
       Event.exiftoolClearDims (pathJoin (pathParent oW) "tmp"),
       Event.moveFile (pathJoin (pathParent oW) "tmp") oW,
       Event.refreshSingle vLtW.id] ∧
    ((process_video envW fsW vLtW).events.count
      (Event.moveFile (pathJoin (pathParent oW) "tmp") oW)) = 1 :=
  C8_swap_atomicity envW fsW vLtW eSmallW oW odW edSmallW rfl rfl
    (by decide) (by decide) (by decide)

/-- A filesystem that additionally has a leftover file at the fixed
temporary path `lib/tmp`. -/
def fsW10 : FS := fun p =>
  if p = pathJoin (pathParent oW) "tmp" then some ⟨[42, 42]⟩ else fsW p

/-- C10: the swap branch always copies to the fixed sibling path
`original.parent / "tmp"` (the first event of the trace), even when a file
already exists there: the write silently overwrites it (last conjunct),
the branch still completes as a swap, and the final contents of the
original depend only on the original's and encoded file's data, not on
the pre-existing leftover `d0`. -/
theorem C10_tmp_overwrite (env : Env) (fs : FS) (v : Video PathT)
    (e o : PathT) (od ed d0 : FileData)
    (henc : v.encoded_path = some e) (horig : v.original_path = some o)
    (ho : fs o = some od) (he : fs e = some ed)
    (hsz : ed.size < od.size)
    (_hpre : fs (pathJoin (pathParent o) "tmp") = some d0) :
    (process_video env fs v).events.head? =
      some (Event.copyFile e (pathJoin (pathParent o) "tmp")) ∧
    (process_video env fs v).outcome = Outcome.Swapped ∧
    (process_video env fs v).fs o =
      some (env.clearDims (env.copyTags od ed).2).2 ∧
    fsWrite fs (pathJoin (pathParent o) "tmp") ed
      (pathJoin (pathParent o) "tmp") = some ed := by
  rw [process_video_swap env fs v e o od ed henc horig ho he hsz]
  exact ⟨rfl, rfl, fsMove_dst _ _ _ _ (fsWrite_self _ _ _),
    fsWrite_self _ _ _⟩

/-- Witness for C10: the filesystem already holds `[42, 42]` at `lib/tmp`;
the swap proceeds identically and the leftover is overwritten. -/
theorem C10_tmp_overwrite_witness :
    (process_video envW fsW10 vLtW).events.head? =
      some (Event.copyFile eSmallW (pathJoin (pathParent oW) "tmp")) ∧
    (process_video envW fsW10 vLtW).outcome = Outcome.Swapped ∧
    (process_video envW fsW10 vLtW).fs oW =
      some (envW.clearDims (envW.copyTags odW edSmallW).2).2 ∧
    fsWrite fsW10 (pathJoin (pathParent oW) "tmp") edSmallW
      (pathJoin (pathParent oW) "tmp") = some edSmallW :=
  C10_tmp_overwrite envW fsW10 vLtW eSmallW oW odW edSmallW ⟨[42, 42]⟩
    rfl rfl (by decide) (by decide) (by decide) (by decide)

/-! ### C2, C3, C4 -/

/-- An environment in which both `exiftool` invocations exit with
status 1 (leaving the file contents as they were). -/
def envFailTool : Env :=
  { copyTags := fun _ ed => (1, ed)
    clearDims := fun d => (1, d)
    refreshStatus := fun _ => 200
    bulkStatus := 204 }

/-- C2 (code bug, src/main.py lines 165-184): both `subprocess.run`
invocations of `exiftool` return exit status 1, yet the loop body never
inspects the exit status (`subprocess.run` without `check=True`), still
performs the `shutil.move` onto the original's path, and the original's
content is changed when the iteration ends — the transplant never
"returns failure" and the move is not withheld. -/
theorem C2_exit_status_ignored :
    (envFailTool.copyTags odW edSmallW).1 = 1 ∧
    (envFailTool.clearDims (envFailTool.copyTags odW edSmallW).2).1 = 1 ∧
    Event.moveFile (pathJoin (pathParent oW) "tmp") oW ∈
      (process_video envFailTool fsW vLtW).events ∧
    (process_video envFailTool fsW vLtW).outcome = Outcome.Swapped ∧
    fsW oW = some odW ∧
    odW.bytes = [1, 2, 3] ∧
    (process_video envFailTool fsW vLtW).fs oW = some edSmallW ∧
    edSmallW.bytes = [5] := by
  decide

/-- Environment for C3: the indexing service answers 500 to the refresh
of asset `a1` and 200 to everything else. -/
def envC3 : Env :=
  { copyTags := fun _ d => (0, d)
    clearDims := fun d => (0, d)
    refreshStatus := fun assetId => if assetId = "a1" then 500 else 200
    bulkStatus := 204 }

/-- First record of the C3 run: reaches the metadata-only refresh, whose
response is a 500. -/
def vC3a : Video PathT :=
  { id := "a1", encoded_path := some eBigW, original_path := some oW
    width := 2000, height := 2000, size := 3 }

/-- Second record of the C3 run: identical but its refresh would get 200. -/
def vC3b : Video PathT :=
  { id := "a2", encoded_path := some eBigW, original_path := some oW
    width := 2000, height := 2000, size := 3 }

/-- Counterexample to C3 as stated: a two-record run in which the first
record's single-asset refresh gets a 500.  The uncaught `HTTPError`
terminates the run (non-zero exit) and the second record is never
processed — the failure is not confined to the failing asset. -/
theorem C3_run_termination_counterexample :
    (main_run envC3 fsW [vC3a, vC3b]).2.2 = true ∧
    (main_run envC3 fsW [vC3a, vC3b]).2.1 = [Event.refreshSingle "a1"] := by
  decide

/-- C3 amended: only the skip conditions (unresolvable path, missing
file) are confined to the asset — a skip never raises, and an iteration
that does not raise lets the loop continue; but an exception inside an
iteration (in particular an `HTTPError` from a 4xx/5xx single-asset
refresh response) propagates out of the un-guarded loop and terminates
the run, leaving the remaining records unprocessed. -/
theorem C3_failure_propagation (env : Env) (fs : FS) (v : Video PathT)
    (vs : List (Video PathT)) :
    ((process_video env fs v).outcome = Outcome.Skipped →
      (process_video env fs v).raised = false) ∧
    ((process_video env fs v).raised = true →
      run_videos env fs (v :: vs) =
        ((process_video env fs v).fs, (process_video env fs v).events,
         true)) ∧
    ((process_video env fs v).raised = false →
      run_videos env fs (v :: vs) =
        ((run_videos env (process_video env fs v).fs vs).1,
         (process_video env fs v).events ++
           (run_videos env (process_video env fs v).fs vs).2.1,
         (run_videos env (process_video env fs v).fs vs).2.2)) := by
  refine ⟨?_, ?_, ?_⟩
  · intro h
    rw [process_video_skip env fs v h]
  · intro h
    simp [run_videos, h]
  · intro h
    simp [run_videos, h]

/-- Witness for C3 amended, covering all three implications. -/
theorem C3_failure_propagation_witness :
    (process_video envC3 fsW vskipW).raised = false ∧
    run_videos envC3 fsW [vC3a] =
      ((process_video envC3 fsW vC3a).fs,
       (process_video envC3 fsW vC3a).events, true) ∧
    run_videos envC3 fsW [vC3b, vC3a] =
      ((run_videos envC3 (process_video envC3 fsW vC3b).fs [vC3a]).1,
       (process_video envC3 fsW vC3b).events ++
         (run_videos envC3 (process_video envC3 fsW vC3b).fs [vC3a]).2.1,
       (run_videos envC3 (process_video envC3 fsW vC3b).fs [vC3a]).2.2) :=
  ⟨(C3_failure_propagation envC3 fsW vskipW []).1 (by decide),
   (C3_failure_propagation envC3 fsW vC3a []).2.1 (by decide),
   (C3_failure_propagation envC3 fsW vC3b [vC3a]).2.2 (by decide)⟩

/-- Counterexample to C4 as stated: a complete, fully successful run
(the per-asset refresh happened and the process exits zero) whose trace
contains no bulk refresh at all — `main` never issues the bulk request,
let alone exactly once. -/
theorem C4_no_bulk_counterexample :
    (main_run envW fsW [vGeW]).2.2 = false ∧
    (main_run envW fsW [vGeW]).2.1 = [Event.refreshSingle "ge"] := by
  decide

/-- No run of the loop ever emits the bulk-refresh event. -/
theorem run_videos_no_bulk (env : Env) (fs : FS)
    (videos : List (Video PathT)) :
    Event.refreshBulk ∉ (run_videos env fs videos).2.1 := by
  induction videos generalizing fs with
  | nil => simp [run_videos]
  | cons v vs ih =>
    cases hr : (process_video env fs v).raised with
    | true =>
      simp only [run_videos, hr]
      simpa using process_video_no_bulk env fs v
    | false =>
      simp only [run_videos, hr, Bool.false_eq_true, if_false,
        List.mem_append]
      rintro (hc | hc)
      · exact process_video_no_bulk env fs v hc
      · exact ih (process_video env fs v).fs hc

/-- C4 amended: `main` never issues the bulk metadata-refresh request in
any run (its trace contains zero bulk-refresh events) —
`refresh_all_metadata` is defined in the source but never called by
`main`.  The dead function itself, if invoked, raises exactly on a
4xx/5xx response (which would exit the process non-zero). -/
theorem C4_bulk_never_called (env : Env) (fs : FS)
    (videos : List (Video PathT)) :
    ((main_run env fs videos).2.1.count Event.refreshBulk) = 0 ∧
    ((refresh_all_metadata env).2 = true ↔
      400 ≤ env.bulkStatus ∧ env.bulkStatus < 600) := by
  constructor
  · exact List.count_eq_zero.mpr (run_videos_no_bulk env fs videos)
  · simp [refresh_all_metadata, raiseForStatus]

/-- Witness instantiating C4's amended statement at concrete inputs. -/
theorem C4_bulk_never_called_witness :
    ((main_run envW fsW [vGeW]).2.1.count Event.refreshBulk) = 0 ∧
    ((refresh_all_metadata envW).2 = true ↔
      400 ≤ envW.bulkStatus ∧ envW.bulkStatus < 600) :=
  C4_bulk_never_called envW fsW [vGeW]
